import Mathlib

/-!
Verification development for a chatbot backend pipeline (intent
classification, collection-name resolution, data sampling, schema
inference, response sanitization).

The definitions below are shallow embeddings of the Python functions in
`LangchainBackend/app` (`analysis_agent.py`, `classifier_agent.py`,
`database_agent.py`, `main.py`, `mongodb_utils.py`).  Python strings are
Lean `String`s, Python dicts are insertion-ordered association lists,
Python values appearing in MongoDB documents are the inductive `PyVal`,
and the generative-text engine's response together with the standard
JSON parser (`json.loads`, library code outside this repository) are
passed in as parameters.
-/

set_option maxRecDepth 16000

/-! ## Generic string helpers (Python semantics) -/

/-- Python `\s` whitespace class (space, tab, newline, return, vertical
tab, form feed). -/
def pyIsSpace (c : Char) : Bool :=
  c = ' ' || c = '\t' || c = '\n' || c = '\r' || c = '\x0b' || c = '\x0c'

/-- Substring test on character lists: `containsSub needle hay` is true
iff `needle` occurs contiguously in `hay` (Python `needle in hay`). -/
def containsSub (needle : List Char) : List Char → Bool
  | [] => needle.isEmpty
  | c :: rest => needle.isPrefixOf (c :: rest) || containsSub needle rest

/-- Python `sub in s` on strings. -/
def strContains (s sub : String) : Bool :=
  containsSub sub.data s.data

/-- Python `any(term in s for term in terms)`. -/
def containsAny (s : String) (terms : List String) : Bool :=
  terms.any (fun t => strContains s t)

/-- Python `s.lower()` (ASCII case folding). -/
def pyLower (s : String) : String :=
  String.mk (s.data.map Char.toLower)

/-- Python `s.endswith('s')`. -/
def endsInS (s : String) : Bool :=
  s.data.getLast? == some 's'

/-- Helper for Python `s.split()`: accumulate the current word (in
reverse) and cut at whitespace runs, dropping empty tokens. -/
def pySplitWsAux : List Char → List Char → List String
  | [], cur => if cur.isEmpty then [] else [String.mk cur.reverse]
  | c :: rest, cur =>
    if pyIsSpace c then
      if cur.isEmpty then pySplitWsAux rest []
      else String.mk cur.reverse :: pySplitWsAux rest []
    else pySplitWsAux rest (c :: cur)

/-- Python `s.split()` with no argument: split on whitespace runs, no
empty tokens. -/
def pySplitWs (s : String) : List String :=
  pySplitWsAux s.data []

/-- Single-quote character, written via its code point. -/
def sqChar : Char := Char.ofNat 39

/-- Single-quote string. -/
def sglq : String := String.singleton sqChar

/-- Opening curly brace as a string, via its code point. -/
def lbrace : String := String.singleton (Char.ofNat 123)

/-- Closing curly brace as a string, via its code point. -/
def rbrace : String := String.singleton (Char.ofNat 125)

/-! ## Python values (MongoDB document contents)

A `PyVal` is any value that can appear in a deserialized MongoDB
document handled by the backend: `None`, booleans, ints, floats,
strings, lists, dicts, and a catch-all for other Python objects
(carrying the result of `type(value).__name__` and of `str(value)`). -/

inductive PyVal where
  | vnone : PyVal
  | vbool : Bool → PyVal
  | vint : Int → PyVal
  | vfloat : String → PyVal
  | vstr : String → PyVal
  | vlist : List PyVal → PyVal
  | vdict : List (String × PyVal) → PyVal
  | vother : String → String → PyVal

/-- `DatabaseAgent._get_type_name` (database_agent.py lines 244-272):
the Python-side type name of a value.  Booleans are checked before ints
(as in the source), floats print as "number", non-empty lists as
`array<T>` of the first element's type. -/
def get_type_name : PyVal → String
  | PyVal.vnone => "null"
  | PyVal.vbool _ => "boolean"
  | PyVal.vint _ => "integer"
  | PyVal.vfloat _ => "number"
  | PyVal.vstr _ => "string"
  | PyVal.vlist [] => "array"
  | PyVal.vlist (x :: _) => "array<" ++ get_type_name x ++ ">"
  | PyVal.vdict _ => "object"
  | PyVal.vother tyName _ => tyName

mutual

/-- Python `str(value)` for the values above (containers render their
elements with `repr`, as CPython does). -/
def pyStr : PyVal → String
  | PyVal.vnone => "None"
  | PyVal.vbool true => "True"
  | PyVal.vbool false => "False"
  | PyVal.vint n => toString n
  | PyVal.vfloat s => s
  | PyVal.vstr s => s
  | PyVal.vlist xs => "[" ++ pyStrJoin xs ++ "]"
  | PyVal.vdict fs => lbrace ++ pyStrFields fs ++ rbrace
  | PyVal.vother _ s => s

/-- Python `repr(value)`: as `str` except strings are quoted. -/
def pyRepr : PyVal → String
  | PyVal.vnone => "None"
  | PyVal.vbool true => "True"
  | PyVal.vbool false => "False"
  | PyVal.vint n => toString n
  | PyVal.vfloat s => s
  | PyVal.vstr s => sglq ++ s ++ sglq
  | PyVal.vlist xs => "[" ++ pyStrJoin xs ++ "]"
  | PyVal.vdict fs => lbrace ++ pyStrFields fs ++ rbrace
  | PyVal.vother _ s => s

/-- Comma-joined `repr`s of list elements. -/
def pyStrJoin : List PyVal → String
  | [] => ""
  | [x] => pyRepr x
  | x :: y :: rest => pyRepr x ++ ", " ++ pyStrJoin (y :: rest)

/-- Comma-joined `'key': repr(value)` renderings of dict entries. -/
def pyStrFields : List (String × PyVal) → String
  | [] => ""
  | [kv] => sglq ++ kv.1 ++ sglq ++ ": " ++ pyRepr kv.2
  | kv :: kw :: rest =>
    sglq ++ kv.1 ++ sglq ++ ": " ++ pyRepr kv.2 ++ ", " ++ pyStrFields (kw :: rest)

end

/-! ## Schema inference (`DatabaseAgent`) -/

/-- One entry of the in-progress `schema` dict built by
`_process_document_for_schema`: keys "type", "count", "example" and the
optional "array_items". -/
structure FieldInfo where
  type : String
  count : Nat
  exampleStr : Option String
  arrayItems : Option String
  deriving Repr, DecidableEq

/-- The in-progress schema dict: insertion-ordered association list. -/
abbrev Schema := List (String × FieldInfo)

/-- Dict lookup `field_name in schema` / `schema[field_name]`. -/
def schemaFind : Schema → String → Option FieldInfo
  | [], _ => none
  | (k, i) :: rest, f => if k = f then some i else schemaFind rest f

/-- In-place update of an existing dict entry (`schema[f] = ...` when
`f` is already a key; no-op when absent). -/
def updateField : Schema → String → (FieldInfo → FieldInfo) → Schema
  | [], _, _ => []
  | (k, i) :: rest, f, upd =>
    if k = f then (k, upd i) :: rest else (k, i) :: updateField rest f upd

/-- `str(value)[:100] if value is not None else None`
(database_agent.py line 204). -/
def exampleOf : PyVal → Option String
  | PyVal.vnone => none
  | v => some ((pyStr v).take 100)

/-- Top-level field handling (database_agent.py lines 199-213): insert
with count 1, or increment the count and extend the stored type to a
`" | "`-joined union when the new value's type name differs. -/
def addTopField (sch : Schema) (f : String) (v : PyVal) : Schema :=
  match schemaFind sch f with
  | none => sch ++ [(f, ⟨get_type_name v, 1, exampleOf v, none⟩)]
  | some _ =>
    updateField sch f (fun info =>
      let newType := get_type_name v
      { info with
        count := info.count + 1,
        type := if info.type ≠ newType then info.type ++ " | " ++ newType
                else info.type })

/-- Nested/array field handling (database_agent.py lines 219-226 and
235-242): insert with count 1, or increment the count only (the type is
not unioned on these paths in the source). -/
def addNestedField (sch : Schema) (f : String) (v : PyVal) : Schema :=
  match schemaFind sch f with
  | none => sch ++ [(f, ⟨get_type_name v, 1, exampleOf v, none⟩)]
  | some _ => updateField sch f (fun info => { info with count := info.count + 1 })

/-- `schema[field_name]["array_items"] = "object"`
(database_agent.py line 230). -/
def setArrayItems (sch : Schema) (f : String) : Schema :=
  updateField sch f (fun info => { info with arrayItems := some "object" })

/-- The body of `_process_document_for_schema` for one `(key, value)`
pair of the document: record the top-level field, then one level of
dict children under `field.child`, then (for a non-empty list whose
first element is a dict) the first element's keys under
`field[].child`. -/
def processEntry (sch : Schema) (pre key : String) (v : PyVal) : Schema :=
  let fieldName := pre ++ key
  let sch1 := addTopField sch fieldName v
  match v with
  | PyVal.vdict nested =>
    nested.foldl (fun s kv => addNestedField s (fieldName ++ "." ++ kv.1) kv.2) sch1
  | PyVal.vlist (PyVal.vdict nf :: _) =>
    let sch2 := setArrayItems sch1 fieldName
    nf.foldl (fun s kv => addNestedField s (fieldName ++ "[]." ++ kv.1) kv.2) sch2
  | _ => sch1

/-- `DatabaseAgent._process_document_for_schema`
(database_agent.py lines 187-242). -/
def process_document_for_schema (doc : List (String × PyVal)) (sch : Schema)
    (pre : String) : Schema :=
  doc.foldl (fun s kv => processEntry s pre kv.1 kv.2) sch

/-- One finished schema field after the occurrence pass of
`_extract_schema_from_documents`: the source stores
`occurrence_rate` as the percentage `(count / total) * 100` (formatted
to one decimal) and `required = (count == total)`. -/
structure SchemaField where
  type : String
  count : Nat
  exampleStr : Option String
  arrayItems : Option String
  occurrenceRate : ℚ
  required : Bool
  deriving Repr, DecidableEq

/-- Schema metadata (database_agent.py lines 174-179). -/
structure SchemaMetadata where
  total_documents : Nat
  top_level_fields : List String
  has_nested_fields : Bool
  has_array_fields : Bool
  deriving Repr, DecidableEq

/-- Result of `_extract_schema_from_documents` on a non-empty batch. -/
structure SchemaResult where
  metadata : SchemaMetadata
  fields : List (String × SchemaField)

/-- Finishing pass over one in-progress entry. -/
def finishField (total : Nat) (info : FieldInfo) : SchemaField :=
  { type := info.type, count := info.count, exampleStr := info.exampleStr,
    arrayItems := info.arrayItems,
    occurrenceRate := (info.count : ℚ) / (total : ℚ) * 100,
    required := info.count == total }

/-- `DatabaseAgent._extract_schema_from_documents`
(database_agent.py lines 144-185).  An empty batch yields `none`
(the source returns the message
"No documents available to extract schema"). -/
def extract_schema_from_documents (documents : List (List (String × PyVal))) :
    Option SchemaResult :=
  match documents with
  | [] => none
  | _ =>
    let schema := documents.foldl
      (fun sch doc => process_document_for_schema doc sch "") []
    let total := documents.length
    let names := schema.map (fun kv => kv.1)
    some
      { metadata :=
          { total_documents := total,
            top_level_fields :=
              names.filter (fun f => !(strContains f ".") && !(strContains f "[]")),
            has_nested_fields := names.any (fun f => strContains f "."),
            has_array_fields := names.any (fun f => strContains f "[]") },
        fields := schema.map (fun kv => (kv.1, finishField total kv.2)) }

/-- Lookup in the finished fields dict. -/
def fieldsFind : List (String × SchemaField) → String → Option SchemaField
  | [], _ => none
  | (k, i) :: rest, f => if k = f then some i else fieldsFind rest f

/-- Lookup a finished field in an `extract_schema_from_documents`
result. -/
def findSchemaField (r : Option SchemaResult) (f : String) : Option SchemaField :=
  match r with
  | none => none
  | some res => fieldsFind res.fields f

/-- The schema paths one `(key, value)` pair of a document generates
(used to count how often a single document can touch a given schema
entry). -/
def entryPaths (fieldName : String) (v : PyVal) : List String :=
  fieldName ::
    (match v with
     | PyVal.vdict nested => nested.map (fun kv => fieldName ++ "." ++ kv.1)
     | PyVal.vlist (PyVal.vdict nf :: _) => nf.map (fun kv => fieldName ++ "[]." ++ kv.1)
     | _ => [])

/-- All schema paths a document generates, under a prefix. -/
def docPathsPre (pre : String) (doc : List (String × PyVal)) : List String :=
  doc.flatMap (fun kv => entryPaths (pre ++ kv.1) kv.2)

/-- All schema paths a document generates (empty prefix, as in the
only call site of `_process_document_for_schema`). -/
def docPaths (doc : List (String × PyVal)) : List String :=
  docPathsPre "" doc

/-- Occurrence count recorded for a field in an in-progress schema
(0 when the field is absent). -/
def countIn (sch : Schema) (f : String) : Nat :=
  match schemaFind sch f with
  | some i => i.count
  | none => 0

/-! ## Analysis agent: analysis-type detection and the Data Adapter -/

/-- Keyword lists of `_detect_analysis_type`
(analysis_agent.py lines 203-221), in source order. -/
def maximumTerms : List String := ["highest", "maximum", "max", "top", "largest"]

def minimumTerms : List String := ["lowest", "minimum", "min", "bottom", "smallest"]

def firstTerms : List String := ["first", "earliest", "initial", "beginning"]

def lastTerms : List String := ["last", "latest", "most recent", "newest"]

def averageTerms : List String := ["average", "mean", "typical"]

def trendTerms : List String := ["trend", "pattern", "over time", "change"]

def comparisonTerms : List String := ["compare", "difference", "versus", "vs"]

def countTerms : List String := ["count", "total", "sum", "how many"]

def outlierTerms : List String := ["outlier", "anomaly", "unusual", "abnormal"]

def schemaTerms : List String :=
  ["schema", "structure", "fields", "keys", "data types", "format"]

/-- All detector keywords, in priority order. -/
def allDetectTerms : List String :=
  maximumTerms ++ minimumTerms ++ firstTerms ++ lastTerms ++ averageTerms ++
    trendTerms ++ comparisonTerms ++ countTerms ++ outlierTerms ++ schemaTerms

/-- `AnalysisAgent._detect_analysis_type`
(analysis_agent.py lines 191-224): first keyword set that matches the
lowercased message wins; default "general". -/
def detect_analysis_type (userMessage : String) : String :=
  let m := pyLower userMessage
  if containsAny m maximumTerms then "maximum"
  else if containsAny m minimumTerms then "minimum"
  else if containsAny m firstTerms then "first"
  else if containsAny m lastTerms then "last"
  else if containsAny m averageTerms then "average"
  else if containsAny m trendTerms then "trend"
  else if containsAny m comparisonTerms then "comparison"
  else if containsAny m countTerms then "count"
  else if containsAny m outlierTerms then "outlier"
  else if containsAny m schemaTerms then "schema"
  else "general"

/-- The "structure" metadata `_prepare_data_for_analysis` attaches
(analysis_agent.py lines 182-186). -/
structure StructInfo where
  fields : List String
  count : Nat
  analysisType : String
  deriving Repr, DecidableEq

/-- The `db_data` dict as mutated by `_prepare_data_for_analysis`:
optional "collection", "data", "note" and "structure" keys. -/
structure DbData where
  collection : Option String
  data : Option (List PyVal)
  note : Option String
  structInfo : Option StructInfo

/-- Full-data cue words (analysis_agent.py line 160). -/
def fullDataKeywords : List String :=
  ["all", "every", "each", "complete", "entire", "total"]

/-- Terms that force full-data analysis (analysis_agent.py line 164). -/
def fullAnalysisTerms : List String :=
  ["average", "mean", "trend", "pattern", "outlier"]

/-- The sampling block of `_prepare_data_for_analysis`
(analysis_agent.py lines 154-172): for a batch of more than 50
documents whose lowercased message carries no full-data cue and no
full-analysis term, a batch of more than 100 documents is replaced by
its first and last 25 items and a note is attached.  The note
interpolates `len(db_data['data'])` AFTER the reassignment, i.e. the
sampled length. -/
def sampleStep (dbData : DbData) (lower : String) : DbData :=
  match dbData.data with
  | some ds =>
    if ds.length > 50 then
      let needsFullData :=
        containsAny lower fullDataKeywords || containsAny lower fullAnalysisTerms
      if needsFullData = false ∧ ds.length > 100 then
        let sampled := ds.take 25 ++ ds.drop (ds.length - 25)
        { dbData with
          data := some sampled,
          note := some ("Data sampled from " ++ toString sampled.length ++
            " records for efficiency.") }
      else dbData
    else dbData
  | none => dbData

/-- The metadata block of `_prepare_data_for_analysis`
(analysis_agent.py lines 178-186): when the (possibly sampled) batch is
non-empty and its first document is a dict, attach the first document's
field names, the batch length and the detected analysis type. -/
def structStep (d1 : DbData) (atype : String) : DbData :=
  match d1.data with
  | some (PyVal.vdict fs :: rest) =>
    { d1 with
      structInfo := some
        { fields := fs.map (fun kv => kv.1),
          count := (PyVal.vdict fs :: rest).length,
          analysisType := atype } }
  | _ => d1

/-- `AnalysisAgent._prepare_data_for_analysis`
(analysis_agent.py lines 143-189), up to (but not including) the final
`json.dumps` serialization: the sampling block followed by the
structural-metadata block. -/
def prepare_data_for_analysis (dbData : DbData) (userMessage : String) : DbData :=
  structStep (sampleStep dbData (pyLower userMessage))
    (detect_analysis_type userMessage)

/-! ## Response Sanitizer (`remove_questions_and_suggestions`) -/

/-- `re.split(r'(?<=[.!])\s+', text)`: cut at each whitespace run whose
immediately preceding character is `.` or `!`, consuming the run.  The
first argument is fuel (one unit per consumed character suffices). -/
def splitSentencesFuel : Nat → List Char → List Char → List (List Char)
  | 0, rest, cur => [cur ++ rest]
  | _ + 1, [], cur => [cur]
  | fuel + 1, c :: rest, cur =>
    if (cur.getLast? == some '.' || cur.getLast? == some '!') && pyIsSpace c then
      cur :: splitSentencesFuel fuel (rest.dropWhile pyIsSpace) []
    else splitSentencesFuel fuel rest (cur ++ [c])

/-- Lazy `.*?[.!]` after a matched prefix: succeed at the first `.` or
`!`, failing if a newline (which `.` does not match) or the end of the
text comes first; returns the text after the match. -/
def findLazyEnd : List Char → Option (List Char)
  | [] => none
  | c :: rest =>
    if c = '.' || c = '!' then some rest
    else if c = '\n' then none
    else findLazyEnd rest

/-- `re.sub(pref + ".*?[.!]", "", text)`: delete every non-overlapping
leftmost match of the literal prefix followed by lazy filler up to the
nearest terminal `.`/`!`. -/
def subPatternFuel : Nat → List Char → List Char → List Char
  | 0, _, l => l
  | fuel + 1, pref, l =>
    match l with
    | [] => []
    | c :: rest =>
      if pref.isPrefixOf l then
        match findLazyEnd (l.drop pref.length) with
        | some after => subPatternFuel fuel pref after
        | none => c :: subPatternFuel fuel pref rest
      else c :: subPatternFuel fuel pref rest

/-- `re.sub(r'\s+', ' ', text)`: collapse each whitespace run to one
space. -/
def collapseWsFuel : Nat → List Char → List Char
  | 0, l => l
  | _ + 1, [] => []
  | fuel + 1, c :: rest =>
    if pyIsSpace c then ' ' :: collapseWsFuel fuel (rest.dropWhile pyIsSpace)
    else c :: collapseWsFuel fuel rest

/-- Python `str.strip()`. -/
def pyStrip (l : List Char) : List Char :=
  ((l.dropWhile pyIsSpace).reverse.dropWhile pyIsSpace).reverse

/-- The suggestion-phrase prefixes of the sanitizer's regex patterns
(analysis_agent.py lines 243-256); each source pattern is this literal
prefix followed by `.*?[.!]`. -/
def suggestionPhrasePrefixes : List String :=
  ["Would you like ", "Do you want ", "If you" ++ sglq ++ "d like ",
   "If you need ", "Let me know if ", "Please let me know ",
   "I can help you ", "I can provide ", "I can analyze ", "I can further ",
   "For more information ", "To learn more "]

/-- `AnalysisAgent.remove_questions_and_suggestions`
(analysis_agent.py lines 226-266): when the text contains `?`, split at
sentence boundaries following `.`/`!` and drop sentences containing
`?`; then delete the suggestion-phrase patterns; then collapse
whitespace, strip, and append a final `.` when the text is non-empty
and lacks terminal punctuation. -/
def remove_questions_and_suggestions (text : String) : String :=
  let cs := text.data
  let cs1 :=
    if cs.contains '?' then
      let sentences := splitSentencesFuel (cs.length + 1) cs []
      let filtered := sentences.filter (fun s => !(s.contains '?'))
      List.intercalate [' '] filtered
    else cs
  let cs2 := suggestionPhrasePrefixes.foldl
    (fun t p => subPatternFuel (t.length + 1) p.data t) cs1
  let cs3 := pyStrip (collapseWsFuel (cs2.length + 1) cs2)
  let cs4 :=
    if !cs3.isEmpty &&
        !(cs3.getLast? == some '.' || cs3.getLast? == some '!' ||
          cs3.getLast? == some '?') then
      cs3 ++ ['.']
    else cs3
  String.mk cs4

/-! ## MongoDB client (`mongodb_utils.py`) -/

/-- The `_id` stringification in `MongoDBClient.query_collection`
(mongodb_utils.py lines 48-51). -/
def stringifyId (doc : PyVal) : PyVal :=
  match doc with
  | PyVal.vdict fs =>
    PyVal.vdict (fs.map (fun kv => if kv.1 = "_id" then (kv.1, PyVal.vstr (pyStr kv.2)) else kv))
  | other => other

/-- `MongoDBClient.query_collection` (mongodb_utils.py lines 25-53)
over the collection's current contents: a `None` filter matches every
document; the server applies `skip` then `limit`; each returned
document has its `_id` converted to a string. -/
def query_collection (contents : List PyVal) (query : Option (PyVal → Bool))
    (limit skip : Nat) : List PyVal :=
  let matched :=
    match query with
    | none => contents
    | some q => contents.filter q
  (((matched.drop skip).take limit).map stringifyId)

/-! ## Intent classification (`ClassifierAgent` and the `/chat`
endpoint in `main.py`) -/

/-- JSON values as they appear in the parsed intent decision. -/
inductive JVal where
  | jnull : JVal
  | jbool : Bool → JVal
  | jnum : Int → JVal
  | jstr : String → JVal
  deriving Repr, DecidableEq

/-- A parsed JSON object: insertion-ordered association list. -/
abbrev JObj := List (String × JVal)

/-- Dict lookup (`obj.get(k)`). -/
def jlookup : JObj → String → Option JVal
  | [], _ => none
  | (k, v) :: rest, f => if k = f then some v else jlookup rest f

/-- Dict assignment `obj[k] = v`: update in place when the key exists,
append otherwise. -/
def jset : JObj → String → JVal → JObj
  | [], k, v => [(k, v)]
  | (k0, v0) :: rest, k, v =>
    if k0 = k then (k0, v) :: rest else (k0, v0) :: jset rest k v

/-- Python truthiness of a JSON value. -/
def jTruthy : JVal → Bool
  | JVal.jnull => false
  | JVal.jbool b => b
  | JVal.jnum n => !(n == 0)
  | JVal.jstr s => !(s == "")

/-- `re.search(r'\{.*\}', response, re.DOTALL)`: the span from the
first opening brace to the last closing brace after it, if any. -/
def extractJsonSpan (s : String) : Option String :=
  let tail := s.data.dropWhile (fun c => c ≠ '{')
  match tail with
  | [] => none
  | b :: rest =>
    let revAfter := rest.reverse.dropWhile (fun c => c ≠ '}')
    if revAfter.isEmpty then none
    else some (String.mk (b :: revAfter.reverse))

/-- Python's non-overlapping left-to-right `str.replace`, on character
lists, with fuel (one unit per consumed character suffices). -/
def replaceSubFuel : Nat → List Char → List Char → List Char → List Char
  | 0, _, _, l => l
  | fuel + 1, needle, repl, l =>
    match l with
    | [] => []
    | c :: rest =>
      if !needle.isEmpty && needle.isPrefixOf l then
        repl ++ replaceSubFuel fuel needle repl (l.drop needle.length)
      else c :: replaceSubFuel fuel needle repl rest

/-- JSON-string cleanup applied before parsing
(classifier_agent.py lines 83-86): single quotes become double quotes,
`True`/`False` become lowercase. -/
def jsonClean (s : String) : String :=
  let l1 := replaceSubFuel (s.data.length + 1) [sqChar] ['"'] s.data
  let l2 := replaceSubFuel (l1.length + 1) "True".data "true".data l1
  let l3 := replaceSubFuel (l2.length + 1) "False".data "false".data l2
  String.mk l3

/-- The keyword set of the classification fallbacks
(classifier_agent.py lines 91-92 and main.py lines 187-188). -/
def dbKeywords : List String :=
  ["database", "mongodb", "collection", "data", "query", "find", "search", "list"]

/-- Words skipped by the fallback collection scan
(classifier_agent.py line 101). -/
def fallbackStopWords : List String :=
  ["from", "where", "what", "when", "how", "show", "get", "find", "query"]

/-- The fallback collection scan (classifier_agent.py lines 95-106):
first token after position 0, longer than 3 characters and not a stop
word; an "s" is appended when missing. -/
def extractCandidate : Nat → List String → Option String
  | _, [] => none
  | i, w :: rest =>
    if 3 < w.length ∧ 0 < i then
      if w ∈ fallbackStopWords then extractCandidate (i + 1) rest
      else some (if endsInS w then w else w ++ "s")
    else extractCandidate (i + 1) rest

/-- The classifier's no-JSON-span fallback decision
(classifier_agent.py lines 89-112). -/
def classifierNoSpanFallback (msg : String) : JObj :=
  let isDbQuery := containsAny (pyLower msg) dbKeywords
  let words := pySplitWs (pyLower msg)
  let collectionName := extractCandidate 0 words
  [("is_database_question", JVal.jbool isDbQuery),
   ("collection",
     match collectionName with
     | some c => JVal.jstr c
     | none => JVal.jnull),
   ("query_type",
     JVal.jstr (if strContains (pyLower msg) "list" then "list_collections"
                else "query_documents"))]

/-- The classifier's exception fallback decision
(classifier_agent.py lines 113-122): as above but with no collection
scan. -/
def classifierErrorFallback (msg : String) : JObj :=
  [("is_database_question", JVal.jbool (containsAny (pyLower msg) dbKeywords)),
   ("collection", JVal.jnull),
   ("query_type",
     JVal.jstr (if strContains (pyLower msg) "list" then "list_collections"
                else "query_documents"))]

/-- The pluralization post-pass (classifier_agent.py lines 124-127):
when the decision's collection is a truthy string other than "null"
that does not end in "s", append "s". -/
def pluralizeStep (j : JObj) : JObj :=
  match jlookup j "collection" with
  | some (JVal.jstr s) =>
    if !(s == "") && !(s == "null") && !(endsInS s) then
      jset j "collection" (JVal.jstr (s ++ "s"))
    else j
  | _ => j

/-- `ClassifierAgent.classify_query` (classifier_agent.py lines 21-130)
from the point the engine's response is in hand: locate a JSON span,
clean and parse it (the parser — `json.loads`, standard-library code —
is a parameter; `none` models a parse exception), fall back to the
keyword heuristics otherwise, and finally force the collection name to
be plural. -/
def classify_query (parse : String → Option JObj) (userMessage llmResponse : String) :
    JObj :=
  let analysisJson :=
    match extractJsonSpan llmResponse with
    | some span =>
      match parse (jsonClean span) with
      | some j => j
      | none => classifierErrorFallback userMessage
    | none => classifierNoSpanFallback userMessage
  pluralizeStep analysisJson

/-- The collection-name pluralization transform of
classifier_agent.py lines 124-127, as a function of the candidate
string (the Collection Resolver rule). -/
def pluralizeName (s : String) : String :=
  if !(s == "") && !(s == "null") && !(endsInS s) then s ++ "s" else s

/-! ### The `/chat` endpoint's own classification pipeline (`main.py`) -/

/-- The chat endpoint's no-JSON-span fallback (main.py lines 186-193):
keyword-based `is_database_question`, `collection` always `None`. -/
def mainNoSpanFallback (msg : String) : JObj :=
  [("is_database_question", JVal.jbool (containsAny (pyLower msg) dbKeywords)),
   ("collection", JVal.jnull),
   ("query_type",
     JVal.jstr (if strContains (pyLower msg) "list" then "list_collections"
                else "query_documents"))]

/-- One step of the key-normalization pass (main.py lines 207-218):
database-flavoured keys first, then collection keys, then
query-type keys, matched by substring on the lowercased key. -/
def normalizeEntry (acc : JObj) (k : String) (v : JVal) : JObj :=
  let kl := pyLower k
  if strContains kl "database" || strContains kl "db" || strContains kl "is_database" then
    jset acc "is_database_question"
      (match v with
       | JVal.jbool b => JVal.jbool b
       | JVal.jstr s => JVal.jbool (["yes", "true", "1"].contains (pyLower s))
       | _ => JVal.jbool false)
  else if strContains kl "collection" then jset acc "collection" v
  else if strContains kl "query" || strContains kl "type" then jset acc "query_type" v
  else acc

/-- Key normalization plus required-key defaults
(main.py lines 205-226). -/
def chatNormalize (j : JObj) : JObj :=
  let n0 := j.foldl (fun acc kv => normalizeEntry acc kv.1 kv.2) []
  let n1 :=
    if (jlookup n0 "is_database_question").isNone then
      jset n0 "is_database_question" (JVal.jbool false)
    else n0
  let n2 :=
    if (jlookup n1 "collection").isNone then jset n1 "collection" JVal.jnull else n1
  if (jlookup n2 "query_type").isNone then
    jset n2 "query_type" (JVal.jstr "query_documents")
  else n2

/-- The word-after-"collection" scan (main.py lines 246-251): the token
following the first "collection"/"collections" token that is not the
last token. -/
def findWordAfterCollection : List String → Option String
  | [] => none
  | w :: rest =>
    if w = "collection" ∨ w = "collections" then
      match rest with
      | nxt :: _ => some nxt
      | [] => none
    else findWordAfterCollection rest

/-- The collection name for which the chat endpoint issues
`client.query_collection(name, None, 10, 0)` (main.py lines 229-262),
or `none` when the list-collections branch is taken or no valid
collection is identified. -/
def chatDownstreamCollection (msg : String) (normalized : JObj)
    (collectionList : List String) : Option String :=
  if jTruthy ((jlookup normalized "is_database_question").getD JVal.jnull) then
    let collv := (jlookup normalized "collection").getD JVal.jnull
    let queryType := (jlookup normalized "query_type").getD (JVal.jstr "query_documents")
    let collv :=
      if !(jTruthy collv) || collv == JVal.jstr "null" then
        match findWordAfterCollection (pySplitWs (pyLower msg)) with
        | some w => JVal.jstr w
        | none => collv
      else collv
    if queryType == JVal.jstr "list_collections" ||
        (strContains (pyLower msg) "list" && strContains (pyLower msg) "collection") then
      none
    else
      match collv with
      | JVal.jstr c =>
        if !(c == "") && !(c == "null") && collectionList.contains c then some c
        else none
      | _ => none
  else none

/-! ## Concrete inputs used in the claims -/

/-- A 150-document batch of small dict documents. -/
def docs150 : List PyVal :=
  (List.range 150).map (fun i => PyVal.vdict [("i", PyVal.vint (i : Int))])

/-- The Data Adapter's input dict for a 150-document "orders" batch. -/
def dbData150 : DbData :=
  { collection := some "orders", data := some docs150, note := none,
    structInfo := none }

/-- Two documents: field `x` is an integer in the first and a string in
the second. -/
def c2docs : List (List (String × PyVal)) :=
  [[("x", PyVal.vint 1)], [("x", PyVal.vstr "a")]]

/-- A single document whose literal dotted key "a.b" collides with the
dotted path generated by the nested dict under key "a". -/
def c9clashDocs : List (List (String × PyVal)) :=
  [[("a.b", PyVal.vint 1), ("a", PyVal.vdict [("b", PyVal.vint 2)])]]

/-- A one-document batch with a single field "x". -/
def c9witnessDocs : List (List (String × PyVal)) :=
  [[("x", PyVal.vint 1)]]

/-- The finished schema field inferred for "a.b" from `c9clashDocs`. -/
def c9clashField : SchemaField :=
  (findSchemaField (extract_schema_from_documents c9clashDocs) "a.b").getD
    ⟨"", 0, none, none, 0, false⟩

/-- The finished schema field inferred for "x" from `c9witnessDocs`. -/
def c9witnessField : SchemaField :=
  (findSchemaField (extract_schema_from_documents c9witnessDocs) "x").getD
    ⟨"", 0, none, none, 0, false⟩

/-- A stub JSON parse result: the engine returned a decision whose
collection name "order" is singular. -/
def parseOrderStub : String → Option JObj :=
  fun _ => some
    [("is_database_question", JVal.jbool true),
     ("collection", JVal.jstr "order"),
     ("query_type", JVal.jstr "query_documents")]

/-! ## Helper lemmas -/

theorem getLast?_append_one {α : Type} (l : List α) (a : α) :
    (l ++ [a]).getLast? = some a := by
  induction l with
  | nil => rfl
  | cons x xs ih =>
    rw [List.cons_append]
    cases h : xs ++ [a] with
    | nil => exact absurd h (by simp)
    | cons y ys =>
      rw [List.getLast?_cons_cons, ← h, ih]

theorem ends_in_s_append (s : String) : endsInS (s ++ "s") = true := by
  cases s with
  | mk l =>
    show (List.getLast? (l ++ ['s']) == some 's') = true
    rw [getLast?_append_one]
    rfl

theorem containsAny_append (s : String) (l1 l2 : List String) :
    containsAny s (l1 ++ l2) = (containsAny s l1 || containsAny s l2) := by
  simp [containsAny, List.any_append]

/-! ## C1: sampling of a 150-document batch with no full-data cue -/

/-- C1: on a 150-document batch with message "show me some orders" the
Data Adapter does return exactly 50 documents — the first 25 followed
by the last 25 in original order — but the attached sampling note reads
"Data sampled from 50 records for efficiency.": it interpolates the
batch length AFTER the reassignment, so it mentions the sampled count
50 and not the original count 150 that the claim (and the note's own
wording) intends. -/
theorem c1_sampling_note_uses_sampled_count :
    (prepare_data_for_analysis dbData150 "show me some orders").data =
      some (docs150.take 25 ++ docs150.drop 125) ∧
    ((prepare_data_for_analysis dbData150 "show me some orders").data.map
      List.length) = some 50 ∧
    (prepare_data_for_analysis dbData150 "show me some orders").note =
      some "Data sampled from 50 records for efficiency." ∧
    strContains "Data sampled from 50 records for efficiency." "150" = false :=
  ⟨rfl, rfl, rfl, rfl⟩

/-! ## C2: schema union for integer-then-string -/

/-- C2 counterexample: for two documents with field `x` an integer then
a string, the stored type is "integer | string", not the
"integer | number" the claim states ("number" is the type name of
floats, not strings). -/
theorem c2_counterexample_union_type :
    (findSchemaField (extract_schema_from_documents c2docs) "x").map
        (fun sf => sf.type) = some "integer | string" ∧
    ¬ ((findSchemaField (extract_schema_from_documents c2docs) "x").map
        (fun sf => sf.type) = some "integer | number") := by
  refine ⟨rfl, ?_⟩
  decide

/-- C2 amended: for two documents with field `x` an integer then a
string, schema inference yields type "integer | string", occurrence
count 2, and (the count equalling the two total documents) required
true. -/
theorem c2_amended_schema_union :
    (findSchemaField (extract_schema_from_documents c2docs) "x").map
        (fun sf => sf.type) = some "integer | string" ∧
    (findSchemaField (extract_schema_from_documents c2docs) "x").map
        (fun sf => sf.count) = some 2 ∧
    (findSchemaField (extract_schema_from_documents c2docs) "x").map
        (fun sf => sf.required) = some true :=
  ⟨rfl, rfl, rfl⟩

/-! ## C3: the Response Sanitizer on the spec's example input -/

/-- C3 counterexample: the sanitizer does not map the example input to
"Here is the result. Thanks.". -/
theorem c3_counterexample_sanitizer :
    ¬ (remove_questions_and_suggestions
        "Here is the result. Would you like more details? Thanks" =
      "Here is the result. Thanks.") := by
  decide

/-- C3 amended: the sanitizer maps
"Here is the result. Would you like more details? Thanks" to
"Here is the result.": sentence boundaries are only recognised after
`.` or `!`, so "Would you like more details? Thanks" is a single
sentence containing `?` and is removed whole, taking the trailing
"Thanks" with it; the remaining text already ends in a period. -/
theorem c3_amended_sanitizer_output :
    remove_questions_and_suggestions
        "Here is the result. Would you like more details? Thanks" =
      "Here is the result." := rfl

/-! ## C8: idempotence of the pluralization transform -/

/-- C8: the collection-name pluralization transform
(classifier_agent.py lines 124-127) is idempotent, and
resolve("order") = "orders", resolve("orders") = "orders". -/
theorem c8_pluralize_idempotent (x : String) :
    pluralizeName (pluralizeName x) = pluralizeName x ∧
    pluralizeName "order" = "orders" ∧
    pluralizeName "orders" = "orders" := by
  refine ⟨?_, rfl, rfl⟩
  by_cases h : (!(x == "") && !(x == "null") && !(endsInS x)) = true
  · have h1 : pluralizeName x = x ++ "s" := by
      unfold pluralizeName
      rw [if_pos h]
    rw [h1]
    have hs : endsInS (x ++ "s") = true := ends_in_s_append x
    unfold pluralizeName
    rw [if_neg (by simp [hs])]
  · have h1 : pluralizeName x = x := by
      unfold pluralizeName
      rw [if_neg h]
    rw [h1, h1]

/-! ## C7: totality and priority of the Analysis-Type Detector -/

/-- C7: the Analysis-Type Detector always returns one of the eleven
fixed analysis types; any message containing "highest" resolves to
"maximum" (so a message containing both "average" and "highest"
resolves to "maximum", the earlier set in priority order); and a
message matching no keyword set resolves to "general". -/
theorem c7_detect_total_priority (msg : String) :
    (detect_analysis_type msg = "maximum" ∨ detect_analysis_type msg = "minimum" ∨
     detect_analysis_type msg = "first" ∨ detect_analysis_type msg = "last" ∨
     detect_analysis_type msg = "average" ∨ detect_analysis_type msg = "trend" ∨
     detect_analysis_type msg = "comparison" ∨ detect_analysis_type msg = "count" ∨
     detect_analysis_type msg = "outlier" ∨ detect_analysis_type msg = "schema" ∨
     detect_analysis_type msg = "general") ∧
    (strContains (pyLower msg) "highest" = true →
      detect_analysis_type msg = "maximum") ∧
    (containsAny (pyLower msg) allDetectTerms = false →
      detect_analysis_type msg = "general") := by
  refine ⟨?_, ?_, ?_⟩
  · simp only [detect_analysis_type]
    split_ifs <;> simp
  · intro h
    have hm : containsAny (pyLower msg) maximumTerms = true := by
      simp only [containsAny, maximumTerms, List.any_cons, List.any_nil, h,
        Bool.true_or]
    simp only [detect_analysis_type]
    rw [if_pos hm]
  · intro h
    have step : ∀ (l1 l2 : List String),
        containsAny (pyLower msg) (l1 ++ l2) = false →
        containsAny (pyLower msg) l1 = false ∧
          containsAny (pyLower msg) l2 = false := by
      intro l1 l2 hh
      rw [containsAny_append] at hh
      exact Bool.or_eq_false_iff.mp hh
    have h0 : containsAny (pyLower msg)
        (maximumTerms ++ (minimumTerms ++ (firstTerms ++ (lastTerms ++
          (averageTerms ++ (trendTerms ++ (comparisonTerms ++ (countTerms ++
            (outlierTerms ++ schemaTerms))))))))) = false := h
    obtain ⟨h1, h0⟩ := step _ _ h0
    obtain ⟨h2, h0⟩ := step _ _ h0
    obtain ⟨h3, h0⟩ := step _ _ h0
    obtain ⟨h4, h0⟩ := step _ _ h0
    obtain ⟨h5, h0⟩ := step _ _ h0
    obtain ⟨h6, h0⟩ := step _ _ h0
    obtain ⟨h7, h0⟩ := step _ _ h0
    obtain ⟨h8, h0⟩ := step _ _ h0
    obtain ⟨h9, h10⟩ := step _ _ h0
    simp only [detect_analysis_type]
    rw [if_neg (by simp [h1]), if_neg (by simp [h2]), if_neg (by simp [h3]),
      if_neg (by simp [h4]), if_neg (by simp [h5]), if_neg (by simp [h6]),
      if_neg (by simp [h7]), if_neg (by simp [h8]), if_neg (by simp [h9]),
      if_neg (by simp [h10])]

/-- C7 witness: a message containing both "average" and "highest"
resolves to "maximum", and a message matching no keyword set resolves
to "general". -/
theorem c7_detect_priority_witness :
    detect_analysis_type "what is the average and highest price" = "maximum" ∧
    detect_analysis_type "good evening friend" = "general" :=
  ⟨(c7_detect_total_priority "what is the average and highest price").2.1 (by decide),
   (c7_detect_total_priority "good evening friend").2.2 (by decide)⟩

/-! ## C5: when the Data Adapter keeps the full batch -/

theorem structStep_preserves (d1 : DbData) (atype : String) :
    (structStep d1 atype).data = d1.data ∧ (structStep d1 atype).note = d1.note := by
  unfold structStep
  split <;> exact ⟨rfl, rfl⟩

theorem sampleStep_skip (db : DbData) (lower : String)
    (h : (containsAny lower fullDataKeywords ||
      containsAny lower fullAnalysisTerms) = true) :
    sampleStep db lower = db := by
  cases hdb : db.data with
  | none => simp only [sampleStep, hdb]
  | some ds =>
    simp only [sampleStep, hdb, h]
    simp

theorem sampleStep_small (db : DbData) (lower : String) (ds : List PyVal)
    (hd : db.data = some ds) (hlen : ¬ ds.length > 50) :
    sampleStep db lower = db := by
  simp only [sampleStep, hd]
  rw [if_neg hlen]

/-- C5 counterexample: the message "typical order price" yields the
detected AnalysisType "average" (via the keyword "typical"), yet on a
150-document batch the Data Adapter samples it down to 50 documents and
attaches a note — the needs-full-data check looks for the substrings
"average"/"mean"/"trend"/"pattern"/"outlier" in the message, not at the
detected AnalysisType, and "typical" is not among them. -/
theorem c5_counterexample_typical_average_sampled :
    detect_analysis_type "typical order price" = "average" ∧
    ((prepare_data_for_analysis dbData150 "typical order price").data.map
      List.length) = some 50 ∧
    (prepare_data_for_analysis dbData150 "typical order price").note =
      some "Data sampled from 50 records for efficiency." :=
  ⟨rfl, rfl, rfl⟩

/-- C5 amended: for every batch and every message containing one of the
substrings "average", "mean", "trend", "pattern", "outlier" (the
adapter's needs-full-data terms — the check the source performs instead
of inspecting the detected AnalysisType), the Data Adapter keeps the
batch unchanged and attaches no note. -/
theorem c5_amended_full_terms_keep_batch (db : DbData) (msg : String)
    (h : containsAny (pyLower msg) fullAnalysisTerms = true) :
    (prepare_data_for_analysis db msg).data = db.data ∧
    (prepare_data_for_analysis db msg).note = db.note := by
  have h1 : sampleStep db (pyLower msg) = db :=
    sampleStep_skip db (pyLower msg) (by simp [h])
  unfold prepare_data_for_analysis
  rw [h1]
  exact structStep_preserves db (detect_analysis_type msg)

/-- C5 witness: on the 150-document batch with the spec's example
message "give me the average price" the adapter keeps all 150 documents
and attaches no note. -/
theorem c5_amended_full_terms_witness :
    (prepare_data_for_analysis dbData150 "give me the average price").data =
      dbData150.data ∧
    (prepare_data_for_analysis dbData150 "give me the average price").note =
      dbData150.note :=
  c5_amended_full_terms_keep_batch dbData150 "give me the average price" (by decide)

/-! ## C10: the chat pipeline's collection-query fetch is capped at 10 -/

/-- C10: the chat pipeline's collection-query path calls
`query_collection(name, None, 10, 0)`; whatever the collection
contents, the fetched batch has at most 10 documents, so the Data
Adapter's sampling branch (which requires a batch of more than 50
documents) never fires on this data: the batch and the (absent) note
are passed through unchanged. -/
theorem c10_query_limit_no_sampling (contents : List PyVal) (coll msg : String) :
    (query_collection contents none 10 0).length ≤ 10 ∧
    (prepare_data_for_analysis
      { collection := some coll, data := some (query_collection contents none 10 0),
        note := none, structInfo := none } msg).data =
      some (query_collection contents none 10 0) ∧
    (prepare_data_for_analysis
      { collection := some coll, data := some (query_collection contents none 10 0),
        note := none, structInfo := none } msg).note = none := by
  have hlen : (query_collection contents none 10 0).length ≤ 10 := by
    simp [query_collection]
  refine ⟨hlen, ?_⟩
  have h1 : sampleStep
      { collection := some coll, data := some (query_collection contents none 10 0),
        note := none, structInfo := none } (pyLower msg) =
      { collection := some coll, data := some (query_collection contents none 10 0),
        note := none, structInfo := none } :=
    sampleStep_small _ (pyLower msg) (query_collection contents none 10 0) rfl
      (by omega)
  unfold prepare_data_for_analysis
  rw [h1]
  exact structStep_preserves _ (detect_analysis_type msg)

/-! ## C6 and C4: the intent-classification fallback and the
pluralization invariant -/

theorem jlookup_jset_self (j : JObj) (k : String) (v : JVal) :
    jlookup (jset j k v) k = some v := by
  induction j with
  | nil => simp [jset, jlookup]
  | cons kv rest ih =>
    obtain ⟨k0, v0⟩ := kv
    by_cases h : k0 = k
    · simp [jset, jlookup, h]
    · simp [jset, jlookup, h, ih]

theorem jlookup_jset_other (j : JObj) (k k' : String) (v : JVal) (h : k' ≠ k) :
    jlookup (jset j k v) k' = jlookup j k' := by
  induction j with
  | nil =>
    simp only [jset, jlookup]
    rw [if_neg (fun hh => h hh.symm)]
  | cons kv rest ih =>
    obtain ⟨k0, v0⟩ := kv
    by_cases h0 : k0 = k
    · subst h0
      simp only [jset, if_pos rfl, jlookup]
      rw [if_neg (fun hh => h hh.symm), if_neg (fun hh => h hh.symm)]
    · simp only [jset, jlookup, if_neg h0]
      by_cases h1 : k0 = k' <;> simp [h1, ih]

theorem pluralizeStep_lookup_other (j : JObj) (k : String) (h : k ≠ "collection") :
    jlookup (pluralizeStep j) k = jlookup j k := by
  unfold pluralizeStep
  split
  · split
    · rw [jlookup_jset_other _ _ _ _ h]
    · rfl
  · rfl

theorem pluralizeStep_collection_isSome (j : JObj)
    (h : (jlookup j "collection").isSome = true) :
    (jlookup (pluralizeStep j) "collection").isSome = true := by
  unfold pluralizeStep
  split
  · split
    · rw [jlookup_jset_self]
      rfl
    · exact h
  · exact h

theorem pluralizeStep_collection_plural (j : JObj) (c : String)
    (h : jlookup (pluralizeStep j) "collection" = some (JVal.jstr c))
    (h1 : c ≠ "") (h2 : c ≠ "null") : endsInS c = true := by
  unfold pluralizeStep at h
  split at h
  next s heq =>
    by_cases hcond : (!(s == "") && !(s == "null") && !(endsInS s)) = true
    · rw [if_pos hcond, jlookup_jset_self] at h
      have hceq : s ++ "s" = c := by simpa using h
      exact hceq ▸ ends_in_s_append s
    · rw [if_neg hcond, heq] at h
      have hsc : s = c := by simpa using h
      subst hsc
      have e1 : (s == "") = false := by simp [h1]
      have e2 : (s == "null") = false := by simp [h2]
      simp [e1, e2] at hcond
      exact hcond
  next x hne =>
    rw [h] at hne
    exact absurd rfl (hne c)

/-- C6: for every message and every engine response in which no JSON
span is found, `classify_query` still returns a decision carrying all
three keys, with `is_database_question` the boolean that is true iff
the message contains one of the keywords database, mongodb, collection,
data, query, find, search, list. -/
theorem c6_fallback_decision_keys (parse : String → Option JObj) (msg resp : String)
    (h : extractJsonSpan resp = none) :
    jlookup (classify_query parse msg resp) "is_database_question" =
      some (JVal.jbool (containsAny (pyLower msg) dbKeywords)) ∧
    (jlookup (classify_query parse msg resp) "collection").isSome = true ∧
    (jlookup (classify_query parse msg resp) "query_type").isSome = true := by
  have hcq : classify_query parse msg resp =
      pluralizeStep (classifierNoSpanFallback msg) := by
    unfold classify_query
    rw [h]
  rw [hcq]
  refine ⟨?_, ?_, ?_⟩
  · rw [pluralizeStep_lookup_other _ _ (by decide)]
    simp only [classifierNoSpanFallback, jlookup]
    simp
  · apply pluralizeStep_collection_isSome
    simp only [classifierNoSpanFallback, jlookup]
    simp
  · rw [pluralizeStep_lookup_other _ _ (by decide)]
    simp only [classifierNoSpanFallback, jlookup]
    simp

/-- C6 witness: the engine response "no braces here" has no JSON span;
on the message "find all users" the classifier still produces all three
keys, with `is_database_question` computed from the keyword set. -/
theorem c6_fallback_decision_witness :
    jlookup (classify_query (fun _ => none) "find all users" "no braces here")
      "is_database_question" =
      some (JVal.jbool (containsAny (pyLower "find all users") dbKeywords)) ∧
    (jlookup (classify_query (fun _ => none) "find all users" "no braces here")
      "collection").isSome = true ∧
    (jlookup (classify_query (fun _ => none) "find all users" "no braces here")
      "query_type").isSome = true :=
  c6_fallback_decision_keys (fun _ => none) "find all users" "no braces here" rfl

/-- C4 counterexample: the `/chat` endpoint in main.py performs no
pluralization.  For the message "show me collection order" with a
no-JSON-span engine response and catalog ["order"], the chat pipeline
passes the collection name "order" to
`client.query_collection("order", None, 10, 0)` — and "order" does not
end in "s". -/
theorem c4_counterexample_main_chat_unpluralized :
    chatDownstreamCollection "show me collection order"
        (chatNormalize (mainNoSpanFallback "show me collection order")) ["order"] =
      some "order" ∧
    endsInS "order" = false := ⟨rfl, rfl⟩

/-- C4 amended: the pluralization invariant holds for the decisions
produced by `ClassifierAgent.classify_query`: every collection value in
its result that is a string other than "" and "null" ends in "s".  (The
`/chat` endpoint in main.py, by contrast, passes collection names
downstream without pluralizing them, which is what falsifies the
original claim.) -/
theorem c4_amended_classifier_plural_invariant (parse : String → Option JObj)
    (msg resp c : String)
    (h : jlookup (classify_query parse msg resp) "collection" =
      some (JVal.jstr c))
    (h1 : c ≠ "") (h2 : c ≠ "null") : endsInS c = true := by
  unfold classify_query at h
  exact pluralizeStep_collection_plural _ c h h1 h2

/-- C4 witness: an engine response parsed to the singular collection
name "order" leaves `classify_query` returning "orders", which ends in
"s". -/
theorem c4_amended_plural_witness : endsInS "orders" = true :=
  c4_amended_classifier_plural_invariant parseOrderStub "show orders" "\x7bok\x7d"
    "orders" rfl (by decide) (by decide)

/-! ## C9: occurrence rates and the required flag -/

theorem schemaFind_updateField (sch : Schema) (f g : String)
    (upd : FieldInfo → FieldInfo) :
    schemaFind (updateField sch f upd) g =
      if g = f then Option.map upd (schemaFind sch f) else schemaFind sch g := by
  induction sch with
  | nil =>
    simp only [updateField, schemaFind, Option.map_none']
    split <;> rfl
  | cons kv rest ih =>
    obtain ⟨k0, i0⟩ := kv
    simp only [updateField]
    by_cases h0 : k0 = f
    · subst h0
      rw [if_pos rfl]
      by_cases h1 : g = k0
      · subst h1
        simp [schemaFind]
      · simp only [schemaFind]
        rw [if_neg (fun hh : k0 = g => h1 hh.symm),
          if_neg (fun hh : k0 = g => h1 hh.symm), if_neg h1]
    · rw [if_neg h0]
      by_cases h1 : g = f
      · subst h1
        simp only [schemaFind]
        rw [if_neg (fun hh : k0 = g => h0 hh), ih,
          if_neg (fun hh : k0 = g => h0 hh)]
        simp
      · by_cases h2 : k0 = g
        · subst h2
          simp [schemaFind, h1]
        · simp only [schemaFind]
          rw [if_neg h2, if_neg h2, ih, if_neg h1, if_neg h1]

theorem schemaFind_append (sch : Schema) (f g : String) (i : FieldInfo) :
    schemaFind (sch ++ [(f, i)]) g =
      (match schemaFind sch g with
       | some j => some j
       | none => if f = g then some i else none) := by
  induction sch with
  | nil => simp [schemaFind]
  | cons kv rest ih =>
    obtain ⟨k0, i0⟩ := kv
    by_cases h : k0 = g
    · simp [schemaFind, h]
    · simp [schemaFind, h, ih]

theorem countIn_addTopField (sch : Schema) (f g : String) (v : PyVal) :
    countIn (addTopField sch f v) g = countIn sch g + (if g = f then 1 else 0) := by
  unfold addTopField
  cases hf : schemaFind sch f with
  | none =>
    unfold countIn
    rw [schemaFind_append]
    cases hg : schemaFind sch g with
    | none =>
      by_cases h : g = f
      · subst h
        simp
      · simp [if_neg h, if_neg (fun hh : f = g => h hh.symm)]
    | some j =>
      by_cases h : g = f
      · subst h
        rw [hf] at hg
        cases hg
      · simp [if_neg h]
  | some i0 =>
    unfold countIn
    rw [schemaFind_updateField]
    by_cases h : g = f
    · subst h
      rw [if_pos rfl, hf]
      simp [hf]
    · rw [if_neg h]
      simp [if_neg h]

theorem countIn_addNestedField (sch : Schema) (f g : String) (v : PyVal) :
    countIn (addNestedField sch f v) g = countIn sch g + (if g = f then 1 else 0) := by
  unfold addNestedField
  cases hf : schemaFind sch f with
  | none =>
    unfold countIn
    rw [schemaFind_append]
    cases hg : schemaFind sch g with
    | none =>
      by_cases h : g = f
      · subst h
        simp
      · simp [if_neg h, if_neg (fun hh : f = g => h hh.symm)]
    | some j =>
      by_cases h : g = f
      · subst h
        rw [hf] at hg
        cases hg
      · simp [if_neg h]
  | some i0 =>
    unfold countIn
    rw [schemaFind_updateField]
    by_cases h : g = f
    · subst h
      rw [if_pos rfl, hf]
      simp [hf]
    · rw [if_neg h]
      simp [if_neg h]

theorem countIn_setArrayItems (sch : Schema) (f g : String) :
    countIn (setArrayItems sch f) g = countIn sch g := by
  unfold setArrayItems countIn
  rw [schemaFind_updateField]
  by_cases h : g = f
  · subst h
    rw [if_pos rfl]
    cases hf : schemaFind sch g <;> simp [hf]
  · rw [if_neg h]

theorem countIn_nested_foldl (pairs : List (String × PyVal)) (sch : Schema)
    (mk : String → String) (g : String) :
    countIn (pairs.foldl (fun s kv => addNestedField s (mk kv.1) kv.2) sch) g =
      countIn sch g + (pairs.map (fun kv => mk kv.1)).count g := by
  induction pairs generalizing sch with
  | nil => simp
  | cons kv rest ih =>
    simp only [List.foldl_cons, List.map_cons]
    rw [ih, countIn_addNestedField, List.count_cons]
    by_cases h : g = mk kv.1
    · subst h
      simp
      omega
    · rw [if_neg h, if_neg (fun hb => h (beq_iff_eq.mp hb).symm)]
      omega

theorem countIn_processEntry (sch : Schema) (pre key : String) (v : PyVal)
    (g : String) :
    countIn (processEntry sch pre key v) g =
      countIn sch g + (entryPaths (pre ++ key) v).count g := by
  cases v
  case vdict nested =>
    simp only [processEntry, entryPaths]
    rw [countIn_nested_foldl, countIn_addTopField, List.count_cons]
    by_cases h : g = pre ++ key
    · subst h
      rw [if_pos rfl, if_pos (beq_self_eq_true _)]
      omega
    · rw [if_neg h, if_neg (fun hb => h (beq_iff_eq.mp hb).symm)]
      omega
  case vlist xs =>
    cases xs
    case nil =>
      simp only [processEntry, entryPaths]
      rw [countIn_addTopField, List.count_cons, List.count_nil]
      by_cases h : g = pre ++ key
      · subst h
        rw [if_pos rfl, if_pos (beq_self_eq_true _)]
      · rw [if_neg h, if_neg (fun hb => h (beq_iff_eq.mp hb).symm)]
    case cons x r =>
      cases x
      case vdict nf =>
        simp only [processEntry, entryPaths]
        rw [countIn_nested_foldl, countIn_setArrayItems, countIn_addTopField,
          List.count_cons]
        by_cases h : g = pre ++ key
        · subst h
          rw [if_pos rfl, if_pos (beq_self_eq_true _)]
          omega
        · rw [if_neg h, if_neg (fun hb => h (beq_iff_eq.mp hb).symm)]
          omega
      all_goals
        (simp only [processEntry, entryPaths]
         rw [countIn_addTopField, List.count_cons, List.count_nil]
         by_cases h : g = pre ++ key
         · subst h
           rw [if_pos rfl, if_pos (beq_self_eq_true _)]
         · rw [if_neg h, if_neg (fun hb => h (beq_iff_eq.mp hb).symm)])
  all_goals
    (simp only [processEntry, entryPaths]
     rw [countIn_addTopField, List.count_cons, List.count_nil]
     by_cases h : g = pre ++ key
     · subst h
       rw [if_pos rfl, if_pos (beq_self_eq_true _)]
     · rw [if_neg h, if_neg (fun hb => h (beq_iff_eq.mp hb).symm)])

theorem countIn_processDoc (doc : List (String × PyVal)) (sch : Schema)
    (pre g : String) :
    countIn (process_document_for_schema doc sch pre) g =
      countIn sch g + (docPathsPre pre doc).count g := by
  induction doc generalizing sch with
  | nil => simp [process_document_for_schema, docPathsPre]
  | cons kv rest ih =>
    simp only [process_document_for_schema, List.foldl_cons, docPathsPre,
      List.flatMap_cons] at *
    rw [ih, countIn_processEntry, List.count_append]
    omega

theorem countIn_foldl_docs (docs : List (List (String × PyVal))) (sch : Schema)
    (g : String) :
    countIn (docs.foldl (fun s doc => process_document_for_schema doc s "") sch) g =
      countIn sch g + (docs.map (fun d => (docPaths d).count g)).sum := by
  induction docs generalizing sch with
  | nil => simp
  | cons d rest ih =>
    simp only [List.foldl_cons, List.map_cons, List.sum_cons]
    rw [ih, countIn_processDoc]
    unfold docPaths
    omega

theorem sum_le_length_of_le_one (l : List Nat) (h : ∀ x ∈ l, x ≤ 1) :
    l.sum ≤ l.length := by
  induction l with
  | nil => simp
  | cons x rest ih =>
    simp only [List.sum_cons, List.length_cons]
    have hx := h x (by simp)
    have hr := ih (fun y hy => h y (by simp [hy]))
    omega

theorem fieldsFind_map (sch : Schema) (total : Nat) (g : String) :
    fieldsFind (sch.map (fun kv => (kv.1, finishField total kv.2))) g =
      (schemaFind sch g).map (finishField total) := by
  induction sch with
  | nil => rfl
  | cons kv rest ih =>
    obtain ⟨k0, i0⟩ := kv
    by_cases h : k0 = g
    · simp [fieldsFind, schemaFind, h]
    · simp [fieldsFind, schemaFind, h, ih]

/-- C9 amended: for every non-empty batch in which no single document
generates the same schema path twice (e.g. no literal dotted key
colliding with a generated nested path — the collision that falsifies
the original claim), every inferred field has occurrence rate between 0
and 100 percent, and required holds iff the field's occurrence count
equals the number of documents. -/
theorem c9_amended_rate_required (docs : List (List (String × PyVal)))
    (f : String) (sf : SchemaField)
    (hne : docs ≠ [])
    (hnd : ∀ doc ∈ docs, (docPaths doc).Nodup)
    (hf : findSchemaField (extract_schema_from_documents docs) f = some sf) :
    0 ≤ sf.occurrenceRate ∧ sf.occurrenceRate ≤ 100 ∧
      (sf.required = true ↔ sf.count = docs.length) := by
  obtain ⟨d, ds, rfl⟩ := List.exists_cons_of_ne_nil hne
  simp only [extract_schema_from_documents, findSchemaField] at hf
  rw [fieldsFind_map] at hf
  obtain ⟨info, hfind, hsf⟩ := Option.map_eq_some'.mp hf
  have hcount : countIn ((d :: ds).foldl
      (fun sch doc => process_document_for_schema doc sch "") []) f = info.count := by
    unfold countIn
    rw [hfind]
  have hsum := countIn_foldl_docs (d :: ds) [] f
  have h0 : countIn ([] : Schema) f = 0 := rfl
  have hle : info.count ≤ (d :: ds).length := by
    rw [← hcount, hsum, h0, Nat.zero_add]
    have hone : ∀ x ∈ (d :: ds).map (fun dd => (docPaths dd).count f), x ≤ 1 := by
      intro x hx
      obtain ⟨dd, hdd, rfl⟩ := List.mem_map.mp hx
      exact List.nodup_iff_count_le_one.mp (hnd dd hdd) f
    calc ((d :: ds).map (fun dd => (docPaths dd).count f)).sum
        ≤ ((d :: ds).map (fun dd => (docPaths dd).count f)).length :=
          sum_le_length_of_le_one _ hone
      _ = (d :: ds).length := List.length_map _ _
  have hrate : sf.occurrenceRate =
      (info.count : ℚ) / (((d :: ds).length : Nat) : ℚ) * 100 := by
    rw [← hsf]
    rfl
  have hreq : sf.required = (info.count == (d :: ds).length) := by
    rw [← hsf]
    rfl
  have hcounteq : sf.count = info.count := by
    rw [← hsf]
    rfl
  have htot : (0 : ℚ) < (((d :: ds).length : Nat) : ℚ) := by
    exact_mod_cast Nat.succ_pos ds.length
  refine ⟨?_, ?_, ?_⟩
  · rw [hrate]
    positivity
  · rw [hrate]
    have h1 : (info.count : ℚ) ≤ (((d :: ds).length : Nat) : ℚ) := by
      exact_mod_cast hle
    have h2 : (info.count : ℚ) / (((d :: ds).length : Nat) : ℚ) ≤ 1 :=
      (div_le_one htot).mpr h1
    calc (info.count : ℚ) / (((d :: ds).length : Nat) : ℚ) * 100 ≤ 1 * 100 :=
        mul_le_mul_of_nonneg_right h2 (by norm_num)
      _ = 100 := by norm_num
  · rw [hreq, hcounteq]
    exact beq_iff_eq

/-- C9 counterexample: on the one-document batch
`[{"a.b": 1, "a": {"b": 2}}]` the literal dotted key "a.b" collides
with the nested path generated under "a", so the single document
increments the "a.b" counter twice and its occurrence rate is 200% —
outside [0, 100]. -/
theorem c9_counterexample_rate_over_100 :
    ¬ (∀ (f : String) (sf : SchemaField),
        findSchemaField (extract_schema_from_documents c9clashDocs) f = some sf →
        0 ≤ sf.occurrenceRate ∧ sf.occurrenceRate ≤ 100) := by
  intro hall
  have h := (hall "a.b" c9clashField rfl).2
  have hr : c9clashField.occurrenceRate =
      (c9clashField.count : ℚ) / ((c9clashDocs.length : Nat) : ℚ) * 100 := rfl
  have hc : c9clashField.count = 2 := rfl
  have hl : c9clashDocs.length = 1 := rfl
  rw [hr, hc, hl] at h
  norm_num at h

/-- C9 witness: the one-document batch `[{"x": 1}]` satisfies the
no-collision hypothesis, and its field "x" has rate in [0, 100] with
required ⇔ count = total. -/
theorem c9_amended_rate_witness :
    0 ≤ c9witnessField.occurrenceRate ∧ c9witnessField.occurrenceRate ≤ 100 ∧
      (c9witnessField.required = true ↔ c9witnessField.count = c9witnessDocs.length) :=
  c9_amended_rate_required c9witnessDocs "x" c9witnessField (by simp [c9witnessDocs]) (by decide) rfl
